import Mathlib

/-!
Verification of the table-extraction core of the `demo_pdf_reader` repository:
the engine registry and orchestrator (`pdf_reader/table_extractor.py`), the
adaptive pdfplumber tuning search (`pdf_reader/engines/text_layer.py`) and the
fallback import chain (`pdf_reader/fallback_import.py`).

Modelling conventions:
* Python machine floats only ever hold dyadic rationals here (bracket bounds,
  midpoints of dyadic numbers, the literal `0.25`); all reachable values are
  exactly representable doubles, so `snap_tolerance` is embedded as `ℚ` and
  every comparison and midpoint is exact.
* Python exceptions are embedded as the `PyError` sum; a function that can
  raise returns `Except PyError _`.
* A backend library call (pdfplumber, pymupdf4llm, ...) is an oracle function
  supplied as a parameter; the registry holds one named oracle per engine.
-/

namespace PdfReader

/-- `Cell` from `pdf_reader/engines/base.py`: a wrapper around a text value. -/
structure Cell where
  text : String
deriving DecidableEq

/-- `Table = List[List[Cell]]` from `pdf_reader/engines/base.py`. -/
abbrev Table := List (List Cell)

/-- The Python exception kinds raised or caught by the embedded code. -/
inductive PyError where
  | valueError (msg : String)
  | importError (msg : String)
  | runtimeError (msg : String)
  | attributeError (msg : String)
  | keyError (msg : String)
deriving DecidableEq

/-- `ExtractionResult` from `pdf_reader/table_extractor.py` (lines 16-19).
Faithful to the source: the dataclass has exactly the two fields `engine`
and `tables`; in particular it has no `error` field. -/
structure ExtractionResult where
  engine : String
  tables : List Table
deriving DecidableEq

/-- A registered engine: a name plus its `extract` behaviour on a fixed
document type.  `extract` may raise (e.g. `RuntimeError` when the underlying
backend is not installed), hence the `Except`. -/
structure Engine (Doc : Type) where
  name : String
  extract : Doc → Except PyError (List Table)

/-- `PDFPlumberSettings` from `pdf_reader/engines/text_layer.py`. -/
structure PDFPlumberSettings where
  min_words : Nat
  snap_tolerance : ℚ
deriving DecidableEq

/-- `PDFPlumberTableEngine` from `pdf_reader/engines/text_layer.py`:
`extract_with_settings` is the backend oracle for
`_extract_with_settings` (a pure function of the document and the
settings), `min_words` and `snap_tolerance` are the constructor defaults
(2 and 3.0 in the source). -/
structure PDFPlumberTableEngine (Doc : Type) where
  extract_with_settings : Doc → PDFPlumberSettings → List Table
  min_words : Nat
  snap_tolerance : ℚ

/-- `_score_settings` (text_layer.py lines 47-50):
`abs(len(tables) - len(reference_tables))`. -/
def score_settings (tables reference_tables : List Table) : Nat :=
  ((tables.length : Int) - (reference_tables.length : Int)).natAbs

/-- The best-so-far update performed at the top of each
`_recursive_snap_search` call (text_layer.py lines 63-69): evaluate the
midpoint `mid_snap`, and replace `best` only when the trial score is
strictly smaller. -/
def snap_trial_best {Doc : Type} (engine : PDFPlumberTableEngine Doc) (pdf_path : Doc)
    (settings : PDFPlumberSettings) (reference_tables : List Table) (mid_snap : ℚ)
    (best : Nat × PDFPlumberSettings × List Table) : Nat × PDFPlumberSettings × List Table :=
  if score_settings (engine.extract_with_settings pdf_path ⟨settings.min_words, mid_snap⟩) reference_tables < best.1 then
    (score_settings (engine.extract_with_settings pdf_path ⟨settings.min_words, mid_snap⟩) reference_tables,
      ⟨settings.min_words, mid_snap⟩,
      engine.extract_with_settings pdf_path ⟨settings.min_words, mid_snap⟩)
  else best

/-- `_recursive_snap_search` (text_layer.py lines 52-88).  The midpoint
`(lo + hi) / 2` is trialled and folded into the best-so-far
(`snap_trial_best`); the recursion stops when the trial score is 0, the
depth budget is exhausted (`depth >= max_depth`) or the bracket is
narrower than 0.25, and otherwise recurses into the upper half when the
trial produced more tables than the reference and into the lower half
otherwise. -/
def recursive_snap_search {Doc : Type} (engine : PDFPlumberTableEngine Doc) (pdf_path : Doc)
    (settings : PDFPlumberSettings) (reference_tables : List Table)
    (lo hi : ℚ) (depth max_depth : Nat)
    (best : Nat × PDFPlumberSettings × List Table) : Nat × PDFPlumberSettings × List Table :=
  if h : score_settings (engine.extract_with_settings pdf_path ⟨settings.min_words, (lo + hi) / 2⟩) reference_tables = 0
      ∨ max_depth ≤ depth ∨ hi - lo < (0.25 : ℚ) then
    snap_trial_best engine pdf_path settings reference_tables ((lo + hi) / 2) best
  else if reference_tables.length < (engine.extract_with_settings pdf_path ⟨settings.min_words, (lo + hi) / 2⟩).length then
    recursive_snap_search engine pdf_path settings reference_tables ((lo + hi) / 2) hi (depth + 1) max_depth
      (snap_trial_best engine pdf_path settings reference_tables ((lo + hi) / 2) best)
  else
    recursive_snap_search engine pdf_path settings reference_tables lo ((lo + hi) / 2) (depth + 1) max_depth
      (snap_trial_best engine pdf_path settings reference_tables ((lo + hi) / 2) best)
termination_by max_depth - depth
decreasing_by
  · simp only [not_or, not_le] at h; omega
  · simp only [not_or, not_le] at h; omega

/-- The sequence of midpoints trialled by `_recursive_snap_search`, one per
call: the same control flow as `recursive_snap_search` (whose
best-so-far accumulator does not influence the control flow), recording
the snap tolerance of every trial. -/
def snap_search_trials {Doc : Type} (engine : PDFPlumberTableEngine Doc) (pdf_path : Doc)
    (settings : PDFPlumberSettings) (reference_tables : List Table)
    (lo hi : ℚ) (depth max_depth : Nat) : List ℚ :=
  if h : score_settings (engine.extract_with_settings pdf_path ⟨settings.min_words, (lo + hi) / 2⟩) reference_tables = 0
      ∨ max_depth ≤ depth ∨ hi - lo < (0.25 : ℚ) then [(lo + hi) / 2]
  else if reference_tables.length < (engine.extract_with_settings pdf_path ⟨settings.min_words, (lo + hi) / 2⟩).length then
    (lo + hi) / 2 :: snap_search_trials engine pdf_path settings reference_tables ((lo + hi) / 2) hi (depth + 1) max_depth
  else
    (lo + hi) / 2 :: snap_search_trials engine pdf_path settings reference_tables lo ((lo + hi) / 2) (depth + 1) max_depth
termination_by max_depth - depth
decreasing_by
  · simp only [not_or, not_le] at h; omega
  · simp only [not_or, not_le] at h; omega

/-- Insert into an ascending list (helper for `sorted_set`). -/
def insert_sorted (x : Nat) : List Nat → List Nat
  | [] => [x]
  | y :: ys => if x ≤ y then x :: y :: ys else y :: insert_sorted x ys

/-- Python `sorted(set(l))`: the distinct elements of `l` in ascending order. -/
def sorted_set (l : List Nat) : List Nat :=
  l.dedup.foldr insert_sorted []

/-- The candidate `min_words` list built at the top of `tune_to_reference`
(text_layer.py lines 100-105).  `list(min_word_options) if
min_word_options else []` is falsy both for `None` and for an empty
list; when the result is empty the default `self.min_words` is the only
candidate, otherwise the default is appended. -/
def tune_candidate_list {Doc : Type} (engine : PDFPlumberTableEngine Doc)
    (min_word_options : Option (List Nat)) : List Nat :=
  match min_word_options with
  | none => [engine.min_words]
  | some opts => if opts.isEmpty then [engine.min_words] else opts ++ [engine.min_words]

/-- One iteration body of the `tune_to_reference` loop (text_layer.py lines
110-121): the initial trial at the default `snap_tolerance` for this
`min_words` candidate, refined by the recursive bisection started at
depth 0 with the initial trial as best-so-far. -/
def tune_candidate {Doc : Type} (engine : PDFPlumberTableEngine Doc) (pdf_path : Doc)
    (reference_tables : List Table) (lo hi : ℚ) (max_depth min_words : Nat) :
    Nat × PDFPlumberSettings × List Table :=
  recursive_snap_search engine pdf_path ⟨min_words, engine.snap_tolerance⟩ reference_tables lo hi 0 max_depth
    (score_settings (engine.extract_with_settings pdf_path ⟨min_words, engine.snap_tolerance⟩) reference_tables,
      ⟨min_words, engine.snap_tolerance⟩,
      engine.extract_with_settings pdf_path ⟨min_words, engine.snap_tolerance⟩)

/-- The cross-candidate best update of `tune_to_reference` (lines 123-126):
`best_score` starts at `float("inf")` (modelled as `none`) and a tuned
candidate replaces the best only when its score is strictly smaller. -/
def tune_step {Doc : Type} (engine : PDFPlumberTableEngine Doc) (pdf_path : Doc)
    (reference_tables : List Table) (lo hi : ℚ) (max_depth : Nat)
    (acc : Option Nat × PDFPlumberSettings × List Table) (min_words : Nat) :
    Option Nat × PDFPlumberSettings × List Table :=
  match acc.1 with
  | none =>
    ((tune_candidate engine pdf_path reference_tables lo hi max_depth min_words).1,
      (tune_candidate engine pdf_path reference_tables lo hi max_depth min_words).2)
  | some b =>
    if (tune_candidate engine pdf_path reference_tables lo hi max_depth min_words).1 < b then
      ((tune_candidate engine pdf_path reference_tables lo hi max_depth min_words).1,
        (tune_candidate engine pdf_path reference_tables lo hi max_depth min_words).2)
    else acc

/-- `tune_to_reference` (text_layer.py lines 90-128): explore the sorted,
deduplicated candidate `min_words` values, bisect `snap_tolerance` for
each, and return the overall best `(tables, settings)` pair. -/
def tune_to_reference {Doc : Type} (engine : PDFPlumberTableEngine Doc) (pdf_path : Doc)
    (reference_tables : List Table) (lo hi : ℚ) (max_depth : Nat)
    (min_word_options : Option (List Nat)) : List Table × PDFPlumberSettings :=
  (((sorted_set (tune_candidate_list engine min_word_options)).foldl
      (tune_step engine pdf_path reference_tables lo hi max_depth)
      (none, ⟨engine.min_words, engine.snap_tolerance⟩, [])).2.2,
    ((sorted_set (tune_candidate_list engine min_word_options)).foldl
      (tune_step engine pdf_path reference_tables lo hi max_depth)
      (none, ⟨engine.min_words, engine.snap_tolerance⟩, [])).2.1)

/-- Rounding of a rational to the nearest integer with ties to even.  For
the dyadic values reachable by the search this is exactly how CPython
renders a float with the `.2f` format (after scaling by 100). -/
def round_half_even (q : ℚ) : ℤ :=
  if q - (⌊q⌋ : ℚ) < 1 / 2 then ⌊q⌋
  else if (1 : ℚ) / 2 < q - (⌊q⌋ : ℚ) then ⌊q⌋ + 1
  else if ⌊q⌋ % 2 = 0 then ⌊q⌋ else ⌊q⌋ + 1

/-- Python `f"{q:.2f}"` for the nonnegative exact doubles occurring here:
two decimal digits, rounding to nearest with ties to even. -/
def format_two_decimals (q : ℚ) : String :=
  toString ((round_half_even (100 * q)).toNat / 100) ++ "." ++
    (if (round_half_even (100 * q)).toNat % 100 < 10 then "0" else "") ++
    toString ((round_half_even (100 * q)).toNat % 100)

/-- `TableExtractor._format_tuned_label` (table_extractor.py lines 76-80). -/
def format_tuned_label (settings : PDFPlumberSettings) : String :=
  "pdfplumber (tuned) [snap=" ++ format_two_decimals settings.snap_tolerance ++
    ", min_words=" ++ toString settings.min_words ++ "]"

/-- Dictionary lookup in the registry `self._engines` (keys are unique, so
the first match is the entry). -/
def lookup_engine {Doc : Type} (engines : List (Engine Doc)) (name : String) : Option (Engine Doc) :=
  engines.find? (fun e => e.name == name)

/-- The loop of `TableExtractor._validate_selection` (table_extractor.py
lines 46-51): look up each requested name in order and raise
`ValueError` at the first miss. -/
def select_named {Doc : Type} (engines : List (Engine Doc)) : List String → Except PyError (List (Engine Doc))
  | [] => .ok []
  | name :: rest =>
    match lookup_engine engines name with
    | none => .error (.valueError ("Onbekende engine: " ++ name))
    | some e =>
      match select_named engines rest with
      | .error err => .error err
      | .ok es => .ok (e :: es)

/-- `TableExtractor._validate_selection` (table_extractor.py lines 40-51):
`None` selects every registered engine in registration order. -/
def validate_selection {Doc : Type} (engines : List (Engine Doc))
    (names : Option (List String)) : Except PyError (List (Engine Doc)) :=
  match names with
  | none => .ok engines
  | some ns => select_named engines ns

/-- The first requested name that is not registered, if any (the name at
which `_validate_selection` raises). -/
def first_unknown {Doc : Type} (engines : List (Engine Doc)) : List String → Option String
  | [] => none
  | name :: rest =>
    match lookup_engine engines name with
    | none => some name
    | some _ => first_unknown engines rest

/-- The per-engine loop of `TableExtractor.extract` (table_extractor.py
lines 99-104): run each selected engine in order, skipping
`pymupdf4llm` when the tuning phase already ran it; an engine exception
aborts the whole call. -/
def run_selected {Doc : Type} (tune_pdfplumber : Bool) (pdf_path : Doc) :
    List (Engine Doc) → Except PyError (List ExtractionResult)
  | [] => .ok []
  | e :: rest =>
    if tune_pdfplumber && (e.name == "pymupdf4llm") then
      run_selected tune_pdfplumber pdf_path rest
    else
      match e.extract pdf_path with
      | .error err => .error err
      | .ok tables =>
        match run_selected tune_pdfplumber pdf_path rest with
        | .error err => .error err
        | .ok results => .ok (⟨e.name, tables⟩ :: results)

/-- The registry facade `TableExtractor` (table_extractor.py).  `engines`
is the ordered name-to-engine dictionary; `pdfplumber` is the
`PDFPlumberTableEngine` instance that `_tune_pdfplumber` addresses as
`self._engines["pdfplumber"]` (in the default registry the entry named
`pdfplumber` is exactly this engine, see `default_table_extractor`). -/
structure TableExtractor (Doc : Type) where
  engines : List (Engine Doc)
  pdfplumber : PDFPlumberTableEngine Doc

/-- `TableExtractor._tune_pdfplumber` (table_extractor.py lines 53-75): run
the `pymupdf4llm` reference engine once, tune pdfplumber against it
(with the default snap bracket 1.0 to 12.0 of `tune_to_reference`), and
return the reference result followed by the tuned result under its
synthesized label. -/
def tune_pdfplumber_phase {Doc : Type} (extractor : TableExtractor Doc) (pdf_path : Doc)
    (tuning_depth : Nat) (min_word_options : Option (List Nat)) :
    Except PyError (List ExtractionResult) :=
  match lookup_engine extractor.engines "pymupdf4llm" with
  | none => .error (.keyError "pymupdf4llm")
  | some pymupdf_engine =>
    match pymupdf_engine.extract pdf_path with
    | .error err => .error err
    | .ok reference_tables =>
      .ok [⟨pymupdf_engine.name, reference_tables⟩,
        ⟨format_tuned_label (tune_to_reference extractor.pdfplumber pdf_path reference_tables 1 12 tuning_depth min_word_options).2,
          (tune_to_reference extractor.pdfplumber pdf_path reference_tables 1 12 tuning_depth min_word_options).1⟩]

/-- `TableExtractor.extract` (table_extractor.py lines 81-105): validate the
selection, optionally run the tuning phase first, then run every
selected engine (skipping `pymupdf4llm` when tuning already ran it). -/
def TableExtractor.extract {Doc : Type} (extractor : TableExtractor Doc) (pdf_path : Doc)
    (engines : Option (List String)) (tune_pdfplumber : Bool) (tuning_depth : Nat)
    (min_word_options : Option (List Nat)) : Except PyError (List ExtractionResult) :=
  match validate_selection extractor.engines engines with
  | .error err => .error err
  | .ok selected =>
    match (if tune_pdfplumber then tune_pdfplumber_phase extractor pdf_path tuning_depth min_word_options else .ok []) with
    | .error err => .error err
    | .ok tune_results =>
      match run_selected tune_pdfplumber pdf_path selected with
      | .error err => .error err
      | .ok rest => .ok (tune_results ++ rest)

/-- The registry built by `TableExtractor.__init__` (table_extractor.py
lines 26-31): pdfplumber, easyocr, pymupdf4llm, docling and camelot are
registered in that order; the plain `extract` of the pdfplumber entry
runs the backend at the default settings (text_layer.py lines 131-135),
and the other four backends are abstract oracles. -/
def default_table_extractor {Doc : Type} (plumber : PDFPlumberTableEngine Doc)
    (easyocr pymupdf docling camelot : Doc → Except PyError (List Table)) :
    TableExtractor Doc :=
  { engines :=
      [⟨"pdfplumber", fun pdf_path => .ok (plumber.extract_with_settings pdf_path ⟨plumber.min_words, plumber.snap_tolerance⟩)⟩,
        ⟨"easyocr", easyocr⟩,
        ⟨"pymupdf4llm", pymupdf⟩,
        ⟨"docling", docling⟩,
        ⟨"camelot", camelot⟩],
    pdfplumber := plumber }

/-- `FallbackImportResult` from `pdf_reader/fallback_import.py`. -/
structure FallbackImportResult where
  engine : String
  tables : List Table
  markdown : String
deriving DecidableEq

/-- `DEFAULT_ENGINE_ORDER` from `pdf_reader/fallback_import.py`. -/
def DEFAULT_ENGINE_ORDER : List String := ["pymupdf4llm", "pdfplumber"]

/-- `_pad_row` (fallback_import.py lines 23-26): pad a row on the right
with empty strings up to `width`. -/
def pad_row (row : List String) (width : Nat) : List String :=
  if width ≤ row.length then row
  else row ++ List.replicate (width - row.length) ""

/-- `max(len(row) for row in text_rows)` over a table (0 on no rows; only
used on tables with at least one row). -/
def max_row_length (text_rows : List (List String)) : Nat :=
  text_rows.foldl (fun acc row => max acc row.length) 0

/-- `format_row` inside `table_to_markdown` (fallback_import.py lines 36-38). -/
def format_markdown_row (row : List String) (column_count : Nat) : String :=
  "| " ++ String.intercalate " | " (pad_row row column_count) ++ " |"

/-- The `header_divider` line (fallback_import.py line 40). -/
def header_divider (column_count : Nat) : String :=
  "| " ++ String.intercalate " | " (List.replicate column_count "---") ++ " |"

/-- `table_to_markdown` (fallback_import.py lines 29-44): reject a zero-row
table with `ValueError`, otherwise render the padded pipe grid with the
divider directly under the first row. -/
def table_to_markdown (table : Table) : Except PyError String :=
  match table with
  | [] => .error (.valueError "Lege tabel kan niet naar markdown worden omgezet")
  | first_row :: rest_rows =>
    .ok (String.intercalate "\n"
      (format_markdown_row (first_row.map Cell.text) (max_row_length ((first_row :: rest_rows).map (fun row => row.map Cell.text)))
        :: header_divider (max_row_length ((first_row :: rest_rows).map (fun row => row.map Cell.text)))
        :: rest_rows.map (fun row =>
          format_markdown_row (row.map Cell.text) (max_row_length ((first_row :: rest_rows).map (fun r => r.map Cell.text))))))

/-- The attribute read `result.error` in `import_table_with_fallback`
(fallback_import.py line 85).  `ExtractionResult`
(table_extractor.py lines 16-19) defines only `engine` and `tables`, so
in the source this attribute lookup raises `AttributeError` for every
result object. -/
def extraction_result_error_attr (_ : ExtractionResult) : Except PyError Bool :=
  .error (.attributeError "ExtractionResult object has no attribute error")

/-- The successful tail of a fallback iteration (fallback_import.py lines
96-97): render the first table and return the chosen engine result. -/
def fallback_render (result : ExtractionResult) (first_table : List (List Cell)) :
    Except PyError FallbackImportResult :=
  match table_to_markdown first_table with
  | .error err => .error err
  | .ok markdown => .ok ⟨result.engine, result.tables, markdown⟩

/-- The `for engine_name in order` loop of `import_table_with_fallback`
(fallback_import.py lines 75-101), including the final exhaustion
`ImportError` after the loop.  The `try` around `extractor.extract`
catches only `ValueError` (re-raised as the unknown-engine
`ImportError`); every other exception propagates. -/
def fallback_attempt_loop {Doc : Type} (extractor : TableExtractor Doc) (pdf_path : Doc)
    (min_rows : Option Nat) : List String → Except PyError FallbackImportResult
  | [] => .error (.importError "Geen geschikte engine gevonden die een tabel met voldoende rijen kon extraheren")
  | engine_name :: rest =>
    match extractor.extract pdf_path (some [engine_name]) false 4 none with
    | .error (.valueError _) => .error (.importError ("Onbekende engine opgegeven: " ++ engine_name))
    | .error err => .error err
    | .ok results =>
      match results with
      | [] => fallback_attempt_loop extractor pdf_path min_rows rest
      | result :: _ =>
        match extraction_result_error_attr result with
        | .error err => .error err
        | .ok has_error =>
          if has_error then fallback_attempt_loop extractor pdf_path min_rows rest
          else
            match result.tables with
            | [] => fallback_attempt_loop extractor pdf_path min_rows rest
            | first_table :: _ =>
              match min_rows with
              | some m =>
                if first_table.length < m then fallback_attempt_loop extractor pdf_path min_rows rest
                else fallback_render result first_table
              | none => fallback_render result first_table

/-- `import_table_with_fallback` (fallback_import.py lines 49-101):
`engine_order=None` means `DEFAULT_ENGINE_ORDER` (the check in the
source is `is not None`, so an explicit empty order stays empty). -/
def import_table_with_fallback {Doc : Type} (pdf_path : Doc)
    (engine_order : Option (List String)) (min_rows : Option Nat)
    (extractor : TableExtractor Doc) : Except PyError FallbackImportResult :=
  fallback_attempt_loop extractor pdf_path min_rows
    (match engine_order with
      | some order => order
      | none => DEFAULT_ENGINE_ORDER)

/-- The `build_table` helper of the repository test suite
(tests/test_fallback_import.py lines 16-20): cell text `r{r}c{c}`. -/
def build_table (rows cols : Nat) : Table :=
  (List.range rows).map (fun r =>
    (List.range cols).map (fun c => ⟨"r" ++ toString r ++ "c" ++ toString c⟩))

/-- A stub engine that returns fixed tables (the `StubEngine` of the test
suite with `should_error=False`). -/
def stub_engine (name : String) (tables : List Table) : Engine Unit :=
  ⟨name, fun _ => .ok tables⟩

/-- A stub engine whose backend raises `RuntimeError("engine failure")`
(the `StubEngine` of the test suite with `should_error=True`). -/
def failing_engine (name : String) : Engine Unit :=
  ⟨name, fun _ => .error (.runtimeError "engine failure")⟩

/-- A pdfplumber engine over the trivial document type whose backend finds
no tables, at the source default settings `min_words=2`,
`snap_tolerance=3.0`. -/
def unitPlumber : PDFPlumberTableEngine Unit :=
  ⟨fun _ _ => [], 2, 3⟩

/-- A backend oracle returning fixed tables. -/
def okBackend (tables : List Table) : Unit → Except PyError (List Table) :=
  fun _ => .ok tables

/-- The default registry over the trivial document type with all backends
finding nothing. -/
def witness_extractor : TableExtractor Unit :=
  default_table_extractor unitPlumber (okBackend []) (okBackend []) (okBackend []) (okBackend [])

/-- A pdfplumber engine whose backend always reports two tables. -/
def two_table_engine : PDFPlumberTableEngine Unit :=
  ⟨fun _ _ => [build_table 1 1, build_table 1 1], 2, 3⟩

/-- Chain scenario for claim C1: the first engine in the order fails
internally, the second would qualify. -/
def c1_extractor : TableExtractor Unit :=
  ⟨[failing_engine "pymupdf4llm", stub_engine "pdfplumber" [build_table 11 2]], unitPlumber⟩

/-- Chain scenario of `test_prefers_first_engine_when_table_has_enough_rows`:
both engines return ample tables. -/
def c2_extractor : TableExtractor Unit :=
  ⟨[stub_engine "pymupdf4llm" [build_table 12 2], stub_engine "pdfplumber" [build_table 15 2]], unitPlumber⟩

/-- Chain scenario of `test_raises_import_error_when_no_engine_succeeds`:
no candidate qualifies under `min_rows=5`. -/
def c3_extractor : TableExtractor Unit :=
  ⟨[stub_engine "pymupdf4llm" [], stub_engine "pdfplumber" [build_table 3 2]], unitPlumber⟩

theorem snap_trial_best_fst_le {Doc : Type} (engine : PDFPlumberTableEngine Doc) (pdf_path : Doc)
    (settings : PDFPlumberSettings) (reference_tables : List Table) (mid_snap : ℚ)
    (best : Nat × PDFPlumberSettings × List Table) :
    (snap_trial_best engine pdf_path settings reference_tables mid_snap best).1 ≤ best.1 := by
  unfold snap_trial_best
  split
  · exact Nat.le_of_lt (by assumption)
  · exact Nat.le_refl _

theorem recursive_snap_search_fst_le {Doc : Type} (engine : PDFPlumberTableEngine Doc)
    (pdf_path : Doc) (settings : PDFPlumberSettings) (reference_tables : List Table) :
    ∀ (gas : Nat) (lo hi : ℚ) (depth max_depth : Nat)
      (best : Nat × PDFPlumberSettings × List Table), max_depth - depth = gas →
      (recursive_snap_search engine pdf_path settings reference_tables lo hi depth max_depth best).1 ≤ best.1 := by
  intro gas
  induction gas with
  | zero =>
    intro lo hi depth max_depth best hgas
    rw [recursive_snap_search]
    rw [dif_pos (Or.inr (Or.inl (by omega)))]
    exact snap_trial_best_fst_le engine pdf_path settings reference_tables _ best
  | succ n ih =>
    intro lo hi depth max_depth best hgas
    rw [recursive_snap_search]
    split
    · exact snap_trial_best_fst_le engine pdf_path settings reference_tables _ best
    · split
      · exact Nat.le_trans
          (ih ((lo + hi) / 2) hi (depth + 1) max_depth _ (by omega))
          (snap_trial_best_fst_le engine pdf_path settings reference_tables _ best)
      · exact Nat.le_trans
          (ih lo ((lo + hi) / 2) (depth + 1) max_depth _ (by omega))
          (snap_trial_best_fst_le engine pdf_path settings reference_tables _ best)

theorem snap_search_trials_length_le {Doc : Type} (engine : PDFPlumberTableEngine Doc)
    (pdf_path : Doc) (settings : PDFPlumberSettings) (reference_tables : List Table) :
    ∀ (gas : Nat) (lo hi : ℚ) (depth max_depth : Nat), max_depth - depth = gas →
      (snap_search_trials engine pdf_path settings reference_tables lo hi depth max_depth).length ≤ gas + 1 := by
  intro gas
  induction gas with
  | zero =>
    intro lo hi depth max_depth hgas
    rw [snap_search_trials]
    rw [dif_pos (Or.inr (Or.inl (by omega)))]
    exact Nat.le_refl _
  | succ n ih =>
    intro lo hi depth max_depth hgas
    rw [snap_search_trials]
    split
    · simp
    · split
      · simpa using Nat.succ_le_succ (ih ((lo + hi) / 2) hi (depth + 1) max_depth (by omega))
      · simpa using Nat.succ_le_succ (ih lo ((lo + hi) / 2) (depth + 1) max_depth (by omega))

/-- Claim C1 (code-bug evidence).  The spec says an internal engine failure
is caught by the fallback chain and the candidate merely skipped.  In the
source, `TableExtractor.extract` does not catch engine exceptions and the
`try` in `import_table_with_fallback` catches only `ValueError`, so a
backend `RuntimeError` of the first engine propagates out of the whole
chain even though the second engine in the order holds a qualifying
11-row table. -/
theorem c1_engine_error_is_fatal_to_chain :
    import_table_with_fallback () (some ["pymupdf4llm", "pdfplumber"]) none c1_extractor
      = .error (.runtimeError "engine failure")
    ∧ (stub_engine "pdfplumber" [build_table 11 2]).extract () = .ok [build_table 11 2] := by
  constructor
  · rfl
  · rfl

/-- Claim C2 (code-bug evidence).  In the scenario of the repository test
`test_prefers_first_engine_when_table_has_enough_rows` (first engine
returns a 12-row table and qualifies with no `min_rows`), the chain must
return that first result; instead the source reads `result.error` on an
`ExtractionResult` that has no such field and dies with
`AttributeError`. -/
theorem c2_first_qualifying_result_crashes :
    import_table_with_fallback () none none c2_extractor
      = .error (.attributeError "ExtractionResult object has no attribute error") := by
  rfl

/-- Claim C3 (code-bug evidence).  In the scenario of the repository test
`test_raises_import_error_when_no_engine_succeeds` (no candidate
qualifies under `min_rows = 5`), the chain must raise the exhaustion
`ImportError`; instead the source dies with `AttributeError` at the very
first candidate, before any qualification check runs. -/
theorem c3_exhaustion_error_unreachable :
    import_table_with_fallback () none (some 5) c3_extractor
      = .error (.attributeError "ExtractionResult object has no attribute error") := by
  rfl

/-- Claim C4: `table_to_markdown` pads every row on the right with
empty-string cells up to the maximum row length, renders the
pipe-delimited grid whose second line is the `---` separator directly
under the first row, raises `ValueError` on a zero-row table, and on
`[[a, b, c], [1, 2]]` produces the 3-column grid whose second data row
ends in an empty cell. -/
theorem c4_table_to_markdown_spec :
    (∀ (first_row : List Cell) (rest_rows : List (List Cell)),
      table_to_markdown (first_row :: rest_rows) =
        .ok (String.intercalate "\n"
          (format_markdown_row (first_row.map Cell.text)
              (max_row_length ((first_row :: rest_rows).map (fun row => row.map Cell.text)))
            :: header_divider (max_row_length ((first_row :: rest_rows).map (fun row => row.map Cell.text)))
            :: rest_rows.map (fun row =>
              format_markdown_row (row.map Cell.text)
                (max_row_length ((first_row :: rest_rows).map (fun r => r.map Cell.text)))))))
    ∧ (∀ (row : List String) (width : Nat),
        pad_row row width = row ++ List.replicate (width - row.length) "")
    ∧ (∀ (row : List String) (width : Nat),
        (pad_row row width).length = max row.length width)
    ∧ table_to_markdown [] = .error (.valueError "Lege tabel kan niet naar markdown worden omgezet")
    ∧ table_to_markdown [[⟨"a"⟩, ⟨"b"⟩, ⟨"c"⟩], [⟨"1"⟩, ⟨"2"⟩]] =
        .ok "| a | b | c |\n| --- | --- | --- |\n| 1 | 2 |  |" := by
  refine ⟨fun first_row rest_rows => rfl, ?_, ?_, rfl, by rfl⟩
  · intro row width
    unfold pad_row
    split
    · rename_i hle
      have : width - row.length = 0 := by omega
      rw [this]
      simp
    · rfl
  · intro row width
    unfold pad_row
    split
    · rename_i hle
      omega
    · rename_i hle
      simp only [List.length_append, List.length_replicate]
      omega

/-- Claim C10: passing an empty (but not `None`) `min_word_options` to
`tune_to_reference` explores exactly the engine default `min_words`
candidate, the same as passing `None`, and the two calls return the same
`(tables, settings)` pair. -/
theorem c10_empty_min_word_options_like_none {Doc : Type}
    (engine : PDFPlumberTableEngine Doc) (pdf_path : Doc)
    (reference_tables : List Table) (lo hi : ℚ) (max_depth : Nat) :
    tune_candidate_list engine (some []) = [engine.min_words]
    ∧ tune_candidate_list engine none = [engine.min_words]
    ∧ tune_to_reference engine pdf_path reference_tables lo hi max_depth (some []) =
        tune_to_reference engine pdf_path reference_tables lo hi max_depth none := by
  exact ⟨rfl, rfl, rfl⟩

/-- Claim C6: for every `min_words` candidate explored by
`tune_to_reference`, the score of the best `(settings, tables)` retained
after the bisection (`tune_candidate`) is at most the score of the
initial trial at the engine default `snap_tolerance` for that candidate,
because `snap_trial_best` replaces the best only on a strictly smaller
score. -/
theorem c6_tuned_score_le_initial {Doc : Type} (engine : PDFPlumberTableEngine Doc)
    (pdf_path : Doc) (reference_tables : List Table) (lo hi : ℚ)
    (max_depth min_words : Nat) :
    (tune_candidate engine pdf_path reference_tables lo hi max_depth min_words).1 ≤
      score_settings (engine.extract_with_settings pdf_path ⟨min_words, engine.snap_tolerance⟩)
        reference_tables := by
  unfold tune_candidate
  exact recursive_snap_search_fst_le engine pdf_path ⟨min_words, engine.snap_tolerance⟩
    reference_tables (max_depth - 0) lo hi 0 max_depth _ rfl

/-- Claim C7: started at depth 0, the bisection performs at most
`max_depth + 1` trials, and performs exactly one trial as soon as the
first trial scores 0 or the bracket is already narrower than 0.25; the
totality of `snap_search_trials` and `recursive_snap_search` (proved by
the decreasing measure `max_depth - depth`) witnesses termination. -/
theorem c7_snap_search_trial_budget {Doc : Type} (engine : PDFPlumberTableEngine Doc)
    (pdf_path : Doc) (settings : PDFPlumberSettings) (reference_tables : List Table)
    (lo hi : ℚ) (max_depth : Nat) :
    (snap_search_trials engine pdf_path settings reference_tables lo hi 0 max_depth).length ≤ max_depth + 1
    ∧ (score_settings (engine.extract_with_settings pdf_path ⟨settings.min_words, (lo + hi) / 2⟩) reference_tables = 0 →
        snap_search_trials engine pdf_path settings reference_tables lo hi 0 max_depth = [(lo + hi) / 2])
    ∧ (hi - lo < (0.25 : ℚ) →
        snap_search_trials engine pdf_path settings reference_tables lo hi 0 max_depth = [(lo + hi) / 2]) := by
  refine ⟨?_, ?_, ?_⟩
  · simpa using snap_search_trials_length_le engine pdf_path settings reference_tables
      (max_depth - 0) lo hi 0 max_depth rfl
  · intro h0
    rw [snap_search_trials, dif_pos (Or.inl h0)]
  · intro hw
    rw [snap_search_trials, dif_pos (Or.inr (Or.inr hw))]

theorem c7_trial_budget_witness :
    (snap_search_trials unitPlumber () ⟨2, 3⟩ [] 1 12 0 4).length ≤ 5
    ∧ snap_search_trials unitPlumber () ⟨2, 3⟩ [] 1 12 0 4 = [(1 + 12) / 2]
    ∧ snap_search_trials two_table_engine () ⟨2, 3⟩ [] 1 (9 / 8) 0 4 = [(1 + 9 / 8) / 2] := by
  refine ⟨(c7_snap_search_trial_budget unitPlumber () ⟨2, 3⟩ [] 1 12 4).1,
    (c7_snap_search_trial_budget unitPlumber () ⟨2, 3⟩ [] 1 12 4).2.1 rfl,
    (c7_snap_search_trial_budget two_table_engine () ⟨2, 3⟩ [] 1 (9 / 8) 4).2.2 (by norm_num)⟩

/-- Claim C8: at a step of the bisection that does not terminate (trial
score nonzero, depth budget not exhausted, bracket at least 0.25 wide),
the next bracket is the upper half `[mid, hi]` exactly when the midpoint
trial produced strictly more tables than the reference, and the lower
half `[lo, mid]` when it produced fewer or equally many. -/
theorem c8_bisection_bracket_direction {Doc : Type} (engine : PDFPlumberTableEngine Doc)
    (pdf_path : Doc) (settings : PDFPlumberSettings) (reference_tables : List Table)
    (lo hi : ℚ) (depth max_depth : Nat) (best : Nat × PDFPlumberSettings × List Table)
    (hscore : score_settings (engine.extract_with_settings pdf_path ⟨settings.min_words, (lo + hi) / 2⟩) reference_tables ≠ 0)
    (hdepth : depth < max_depth)
    (hwidth : (0.25 : ℚ) ≤ hi - lo) :
    (reference_tables.length < (engine.extract_with_settings pdf_path ⟨settings.min_words, (lo + hi) / 2⟩).length →
      recursive_snap_search engine pdf_path settings reference_tables lo hi depth max_depth best =
        recursive_snap_search engine pdf_path settings reference_tables ((lo + hi) / 2) hi (depth + 1) max_depth
          (snap_trial_best engine pdf_path settings reference_tables ((lo + hi) / 2) best))
    ∧ ((engine.extract_with_settings pdf_path ⟨settings.min_words, (lo + hi) / 2⟩).length ≤ reference_tables.length →
      recursive_snap_search engine pdf_path settings reference_tables lo hi depth max_depth best =
        recursive_snap_search engine pdf_path settings reference_tables lo ((lo + hi) / 2) (depth + 1) max_depth
          (snap_trial_best engine pdf_path settings reference_tables ((lo + hi) / 2) best)) := by
  have hcond : ¬(score_settings (engine.extract_with_settings pdf_path ⟨settings.min_words, (lo + hi) / 2⟩) reference_tables = 0
      ∨ max_depth ≤ depth ∨ hi - lo < (0.25 : ℚ)) := by
    push_neg
    exact ⟨hscore, hdepth, hwidth⟩
  constructor
  · intro hmore
    rw [recursive_snap_search, dif_neg hcond, if_pos hmore]
  · intro hle
    rw [recursive_snap_search, dif_neg hcond, if_neg (not_lt.mpr hle)]

theorem c8_bracket_witness :
    recursive_snap_search two_table_engine () ⟨2, 3⟩ [build_table 1 1] 1 12 0 4 (5, ⟨2, 3⟩, []) =
      recursive_snap_search two_table_engine () ⟨2, 3⟩ [build_table 1 1] ((1 + 12) / 2) 12 1 4
        (snap_trial_best two_table_engine () ⟨2, 3⟩ [build_table 1 1] ((1 + 12) / 2) (5, ⟨2, 3⟩, [])) := by
  exact (c8_bisection_bracket_direction two_table_engine () ⟨2, 3⟩ [build_table 1 1] 1 12 0 4
    (5, ⟨2, 3⟩, []) (by decide) (by omega) (by norm_num)).1 (by decide)

theorem select_named_first_unknown {Doc : Type} (engines : List (Engine Doc)) :
    ∀ (names : List String) (u : String), first_unknown engines names = some u →
      u ∈ names ∧ lookup_engine engines u = none ∧
        select_named engines names = .error (.valueError ("Onbekende engine: " ++ u)) := by
  intro names
  induction names with
  | nil =>
    intro u h
    simp [first_unknown] at h
  | cons name rest ih =>
    intro u h
    cases hn : lookup_engine engines name with
    | none =>
      simp only [first_unknown, hn, Option.some.injEq] at h
      subst h
      refine ⟨List.mem_cons_self _ _, hn, ?_⟩
      simp [select_named, hn]
    | some e =>
      simp only [first_unknown, hn] at h
      obtain ⟨hu, hlu, hsel⟩ := ih u h
      refine ⟨List.mem_cons_of_mem _ hu, hlu, ?_⟩
      simp [select_named, hn, hsel]

/-- Claim C5: when the requested engine-name list contains a name that is
not registered, `_validate_selection` (and `extract`, which runs it
first) fails with a `ValueError` naming exactly the offending
identifier, even when the other requested names are valid; it is never
skipped silently. -/
theorem c5_unknown_engine_selection {Doc : Type} (extractor : TableExtractor Doc)
    (pdf_path : Doc) (names : List String) (u : String)
    (h : first_unknown extractor.engines names = some u) :
    u ∈ names ∧ lookup_engine extractor.engines u = none ∧
      validate_selection extractor.engines (some names) =
        .error (.valueError ("Onbekende engine: " ++ u)) ∧
      extractor.extract pdf_path (some names) false 4 none =
        .error (.valueError ("Onbekende engine: " ++ u)) := by
  obtain ⟨hu, hlu, hsel⟩ := select_named_first_unknown extractor.engines names u h
  have hval : validate_selection extractor.engines (some names) =
      .error (.valueError ("Onbekende engine: " ++ u)) := by
    simp only [validate_selection]
    exact hsel
  refine ⟨hu, hlu, hval, ?_⟩
  unfold TableExtractor.extract
  rw [hval]

theorem c5_selection_witness :
    "missing" ∈ ["pdfplumber", "missing"] ∧
    lookup_engine witness_extractor.engines "missing" = none ∧
    validate_selection witness_extractor.engines (some ["pdfplumber", "missing"]) =
      .error (.valueError ("Onbekende engine: " ++ "missing")) ∧
    witness_extractor.extract () (some ["pdfplumber", "missing"]) false 4 none =
      .error (.valueError ("Onbekende engine: " ++ "missing")) := by
  exact c5_unknown_engine_selection witness_extractor () ["pdfplumber", "missing"] "missing" rfl

theorem run_selected_false_cons {Doc : Type} (pdf_path : Doc) (e : Engine Doc)
    (rest : List (Engine Doc)) :
    run_selected false pdf_path (e :: rest) =
      match e.extract pdf_path with
      | .error err => .error err
      | .ok tables =>
        match run_selected false pdf_path rest with
        | .error err => .error err
        | .ok results => .ok (⟨e.name, tables⟩ :: results) := by
  rfl

theorem run_selected_tune_filter {Doc : Type} (pdf_path : Doc) :
    ∀ engine_list : List (Engine Doc),
      run_selected true pdf_path engine_list =
        run_selected false pdf_path (engine_list.filter (fun e => !(e.name == "pymupdf4llm"))) := by
  intro engine_list
  induction engine_list with
  | nil => rfl
  | cons e rest ih =>
    cases hname : e.name == "pymupdf4llm" with
    | true =>
      have hfilter : (e :: rest).filter (fun x => !(x.name == "pymupdf4llm")) =
          rest.filter (fun x => !(x.name == "pymupdf4llm")) := by
        simp [List.filter_cons, hname]
      rw [hfilter, run_selected, if_pos (by simp [hname])]
      exact ih
    | false =>
      have hfilter : (e :: rest).filter (fun x => !(x.name == "pymupdf4llm")) =
          e :: rest.filter (fun x => !(x.name == "pymupdf4llm")) := by
        simp [List.filter_cons, hname]
      rw [hfilter, run_selected, if_neg (by simp [hname]), run_selected_false_cons]
      cases hext : e.extract pdf_path with
      | error err => rfl
      | ok tables => rw [ih]

theorem run_selected_engine_names {Doc : Type} (pdf_path : Doc) :
    ∀ (engine_list : List (Engine Doc)) (results : List ExtractionResult),
      run_selected false pdf_path engine_list = .ok results →
      ∀ r ∈ results, ∃ e ∈ engine_list, r.engine = e.name := by
  intro engine_list
  induction engine_list with
  | nil =>
    intro results h r hr
    rw [run_selected] at h
    cases h
    simp at hr
  | cons e rest ih =>
    intro results h r hr
    rw [run_selected_false_cons] at h
    split at h
    · exact absurd h (by simp)
    · rename_i tables hext
      split at h
      · exact absurd h (by simp)
      · rename_i rs hrec
        simp only [Except.ok.injEq] at h
        subst h
        rcases List.mem_cons.mp hr with hr0 | hrtl
        · subst hr0
          exact ⟨e, List.mem_cons_self _ _, rfl⟩
        · obtain ⟨e2, he2, hname⟩ := ih rs hrec r hrtl
          exact ⟨e2, List.mem_cons_of_mem _ he2, hname⟩

theorem extract_steps {Doc : Type} (extractor : TableExtractor Doc) (pdf_path : Doc)
    (names : Option (List String)) (tuning_depth : Nat)
    (min_word_options : Option (List Nat)) (selected : List (Engine Doc))
    (hsel : validate_selection extractor.engines names = .ok selected)
    (tune_results : List ExtractionResult)
    (hphase : tune_pdfplumber_phase extractor pdf_path tuning_depth min_word_options = .ok tune_results)
    (tail : List ExtractionResult)
    (htail : run_selected true pdf_path selected = .ok tail) :
    extractor.extract pdf_path names true tuning_depth min_word_options =
      .ok (tune_results ++ tail) := by
  unfold TableExtractor.extract
  split
  · rename_i err heq
    rw [hsel] at heq
    cases heq
  · rename_i sel2 heq
    rw [hsel] at heq
    injection heq with heq2
    subst heq2
    split
    · rename_i err heq3
      rw [hphase] at heq3
      simp at heq3
    · rename_i tr heq3
      rw [hphase] at heq3
      simp at heq3
      subst heq3
      split
      · rename_i err heq5
        rw [htail] at heq5
        cases heq5
      · rename_i tl heq5
        rw [htail] at heq5
        injection heq5 with heq6
        subst heq6
        rfl

/-- Claim C9: `TableExtractor.extract` with tuning requested returns the
`pymupdf4llm` reference result first, then the tuned pdfplumber result
under its synthesized `format_tuned_label` label, then the results of
the remaining selected engines in selection order with `pymupdf4llm`
filtered out; since the tail holds exactly the non-`pymupdf4llm`
selected engines, the tuning-phase result is the only one emitted for
`pymupdf4llm`. -/
theorem c9_extract_with_tuning_order {Doc : Type} (plumber : PDFPlumberTableEngine Doc)
    (easyocr pymupdf docling camelot : Doc → Except PyError (List Table)) (pdf_path : Doc)
    (names : List String) (tuning_depth : Nat) (min_word_options : Option (List Nat))
    (selected : List (Engine Doc))
    (hsel : validate_selection (default_table_extractor plumber easyocr pymupdf docling camelot).engines
        (some names) = .ok selected)
    (reference_tables : List Table)
    (href : pymupdf pdf_path = .ok reference_tables)
    (rest : List ExtractionResult)
    (hrest : run_selected false pdf_path (selected.filter (fun e => !(e.name == "pymupdf4llm"))) = .ok rest) :
    (default_table_extractor plumber easyocr pymupdf docling camelot).extract pdf_path
        (some names) true tuning_depth min_word_options
      = .ok (⟨"pymupdf4llm", reference_tables⟩
          :: ⟨format_tuned_label (tune_to_reference plumber pdf_path reference_tables 1 12 tuning_depth min_word_options).2,
              (tune_to_reference plumber pdf_path reference_tables 1 12 tuning_depth min_word_options).1⟩
          :: rest)
    ∧ ∀ r ∈ rest, r.engine ≠ "pymupdf4llm" := by
  constructor
  · have hstep : tune_pdfplumber_phase (default_table_extractor plumber easyocr pymupdf docling camelot)
        pdf_path tuning_depth min_word_options
        = (match pymupdf pdf_path with
          | .error err => (.error err : Except PyError (List ExtractionResult))
          | .ok rt =>
            .ok [⟨"pymupdf4llm", rt⟩,
              ⟨format_tuned_label (tune_to_reference plumber pdf_path rt 1 12 tuning_depth min_word_options).2,
                (tune_to_reference plumber pdf_path rt 1 12 tuning_depth min_word_options).1⟩]) := rfl
    have hphase : tune_pdfplumber_phase (default_table_extractor plumber easyocr pymupdf docling camelot)
        pdf_path tuning_depth min_word_options
        = .ok [⟨"pymupdf4llm", reference_tables⟩,
            ⟨format_tuned_label (tune_to_reference plumber pdf_path reference_tables 1 12 tuning_depth min_word_options).2,
              (tune_to_reference plumber pdf_path reference_tables 1 12 tuning_depth min_word_options).1⟩] := by
      rw [hstep, href]
    have hmain := extract_steps (default_table_extractor plumber easyocr pymupdf docling camelot)
      pdf_path (some names) tuning_depth min_word_options selected hsel _ hphase rest
      (by rw [run_selected_tune_filter pdf_path selected]; exact hrest)
    simpa using hmain
  · intro r hr
    obtain ⟨e, he, hname⟩ := run_selected_engine_names pdf_path _ rest hrest r hr
    have hmem := (List.mem_filter.mp he).2
    simp only [Bool.not_eq_true', beq_eq_false_iff_ne, ne_eq] at hmem
    rw [hname]
    exact hmem

theorem c9_tuning_order_witness :
    witness_extractor.extract () (some ["pdfplumber", "pymupdf4llm"]) true 4 none
      = .ok (⟨"pymupdf4llm", []⟩
          :: ⟨format_tuned_label (tune_to_reference unitPlumber () [] 1 12 4 none).2,
              (tune_to_reference unitPlumber () [] 1 12 4 none).1⟩
          :: [⟨"pdfplumber", []⟩]) := by
  exact (c9_extract_with_tuning_order unitPlumber (okBackend []) (okBackend []) (okBackend [])
    (okBackend []) () ["pdfplumber", "pymupdf4llm"] 4 none _ rfl [] rfl [⟨"pdfplumber", []⟩] rfl).1
